import Mathlib

/-!
Shallow embedding of `src/native/portaudio.cc` (the zeaker native audio
bridge).  Float samples and volumes are modelled as rationals: every
operation the claims exercise (comparison against 0/1/2, clamping,
multiplication by the exact constants 1 and 2) is exact in IEEE float,
so the rational model tracks the float computation on those paths.
The PortAudio backend is opaque; it is modelled as an oracle `Backend`
recording which primitive calls succeed, and every operation additionally
returns the ordered list of backend calls it performed.
-/

namespace Zeaker

/-- Per-stream registry state: the backend stream handle and the current
volume (source `struct StreamInfo`, portaudio.cc lines 15-19). -/
structure StreamInfo where
  stream : Nat
  volume : ℚ
  deriving DecidableEq, Repr

/-- The process-wide mutable globals of portaudio.cc: the stream table
`g_streams` (a `std::map` keyed by `uint32_t`, modelled as an association
list with unique keys), the id counter `g_nextStreamId`, and the two
thread-safe-function bindings `g_audioCallbackTsfn` / `g_eventCallbackTsfn`
(each modelled as an optional handler identifier). -/
structure PAState where
  streams : List (Nat × StreamInfo)
  nextStreamId : Nat
  audioCallbackTsfn : Option Nat
  eventCallbackTsfn : Option Nat
  deriving DecidableEq, Repr

/-- Oracle for the opaque PortAudio backend: device queries and the
outcome of each stream primitive (`some handle` / `true` = success). -/
structure Backend where
  deviceCount : Int
  defaultOutputDevice : Int
  deviceLowLatency : Int → Option ℚ
  openDefaultResult : Option Nat
  openResult : Option Nat
  startOk : Bool
  stopOk : Bool
  closeOk : Bool
  writeOk : Bool
  errText : String

/-- One call into the PortAudio backend, as observed at the C API
boundary.  `userData` on the open calls records the callback context
pointer handed to the backend (`nullptr` for the blocking opens, the
fill-callback binding for the async open). -/
inductive BackendCall where
  | getDeviceCount
  | getDeviceInfo (device : Int)
  | openDefault (inChannels outChannels : Int) (sampleRate : ℚ)
      (framesPerBuffer : Nat) (userData : Option Nat)
  | openStream (device : Int) (sampleRate : ℚ) (channels : Int)
      (framesPerBuffer : Nat) (suggestedLatency : ℚ) (userData : Option Nat)
  | startStream (handle : Nat)
  | stopStream (handle : Nat)
  | closeStream (handle : Nat)
  | writeStream (handle : Nat) (buffer : List ℚ) (frameCount : Nat)
  deriving DecidableEq, Repr

/-- Whether a backend call is a stream-open primitive
(`Pa_OpenDefaultStream` or `Pa_OpenStream`). -/
def BackendCall.isStreamOpenCall : BackendCall → Bool
  | .openDefault _ _ _ _ _ => true
  | .openStream _ _ _ _ _ _ => true
  | _ => false

/-- The callback context pointer passed with a stream-open call
(`none` for every other call). -/
def BackendCall.userDataOf : BackendCall → Option Nat
  | .openDefault _ _ _ _ u => u
  | .openStream _ _ _ _ _ u => u
  | _ => none

/-- Error taxonomy of the spec, with the diagnostic text the source
attaches to each thrown `Napi::Error`. -/
inductive PAError where
  | typeError (msg : String)
  | alreadyOpen
  | invalidArgument (msg : String)
  | notFound
  | backendError (msg : String)
  deriving DecidableEq, Repr

/-- Result of a registry operation: the returned value or error, the
global state after the call, and the backend calls made. -/
structure OpResult (α : Type) where
  result : Except PAError α
  state : PAState
  calls : List BackendCall

/-- GetStreamInfoById (portaudio.cc lines 24-28): `g_streams.find(id)`. -/
def GetStreamInfoById : List (Nat × StreamInfo) → Nat → Option StreamInfo
  | [], _ => none
  | (k, v) :: rest, id => if k = id then some v else GetStreamInfoById rest id

/-- `g_streams[id] = v`: insert-or-assign on the keyed table. -/
def mapInsert : List (Nat × StreamInfo) → Nat → StreamInfo → List (Nat × StreamInfo)
  | [], id, v => [(id, v)]
  | (k, w) :: rest, id, v =>
      if k = id then (id, v) :: rest else (k, w) :: mapInsert rest id v

/-- `g_streams.erase(id)`: remove the entry with key `id`. -/
def mapErase : List (Nat × StreamInfo) → Nat → List (Nat × StreamInfo)
  | [], _ => []
  | (k, w) :: rest, id => if k = id then rest else (k, w) :: mapErase rest id

/-- OpenDefaultStream (portaudio.cc lines 118-151): refuse when a stream
is already open, else `Pa_OpenDefaultStream` (no input, stereo, 44100 Hz,
256 frames, blocking) then `Pa_StartStream`; on start failure the stream
is closed again and no entry is registered.  `g_nextStreamId++` is a
`uint32_t` post-increment, hence the `% 2 ^ 32`. -/
def OpenDefaultStream (be : Backend) (st : PAState) : OpResult Nat :=
  if st.streams.length > 0 then
    ⟨.error .alreadyOpen, st, []⟩
  else
    match be.openDefaultResult with
    | none =>
        ⟨.error (.backendError be.errText), st,
          [.openDefault 0 2 44100 256 none]⟩
    | some h =>
        if be.startOk then
          let streamId := st.nextStreamId
          ⟨.ok streamId,
            { st with
                streams := mapInsert st.streams streamId ⟨h, 1⟩
                nextStreamId := (streamId + 1) % 2 ^ 32 },
            [.openDefault 0 2 44100 256 none, .startStream h]⟩
        else
          ⟨.error (.backendError be.errText), st,
            [.openDefault 0 2 44100 256 none, .startStream h, .closeStream h]⟩

/-- OpenStream (portaudio.cc lines 154-234): validates device index
against `Pa_GetDeviceCount`, then channels, sample rate and
framesPerBuffer, then opens and starts a blocking stream.  Note the
source performs no already-open check here.  The device's
default-low-output latency is read from `Pa_GetDeviceInfo` (the source
dereferences the result without a null check; a missing device is
modelled as latency 0). -/
def OpenStream (be : Backend) (st : PAState) (deviceIndex : Int) (sampleRate : ℚ)
    (channels : Int) (framesPerBuffer : Nat) : OpResult Nat :=
  if deviceIndex < 0 ∨ be.deviceCount ≤ deviceIndex then
    ⟨.error (.invalidArgument "Invalid device index"), st, [.getDeviceCount]⟩
  else if channels ≤ 0 then
    ⟨.error (.invalidArgument "Channel count must be positive"), st, [.getDeviceCount]⟩
  else if sampleRate ≤ 0 then
    ⟨.error (.invalidArgument "Sample rate must be positive"), st, [.getDeviceCount]⟩
  else if framesPerBuffer = 0 then
    ⟨.error (.invalidArgument "framesPerBuffer must be positive"), st, [.getDeviceCount]⟩
  else
    let latency := match be.deviceLowLatency deviceIndex with
      | some l => l
      | none => 0
    let openCall := BackendCall.openStream deviceIndex sampleRate channels
      framesPerBuffer latency none
    match be.openResult with
    | none =>
        ⟨.error (.backendError ("PortAudio error in Pa_OpenStream: " ++ be.errText)), st,
          [.getDeviceCount, .getDeviceInfo deviceIndex, openCall]⟩
    | some h =>
        if be.startOk then
          let streamId := st.nextStreamId
          ⟨.ok streamId,
            { st with
                streams := mapInsert st.streams streamId ⟨h, 1⟩
                nextStreamId := (streamId + 1) % 2 ^ 32 },
            [.getDeviceCount, .getDeviceInfo deviceIndex, openCall, .startStream h]⟩
        else
          ⟨.error (.backendError ("PortAudio error in Pa_StartStream: " ++ be.errText)), st,
            [.getDeviceCount, .getDeviceInfo deviceIndex, openCall,
              .startStream h, .closeStream h]⟩

/-- Options object of `openStreamAsync` (portaudio.cc lines 413-417):
absent fields fall back to the defaults read at those lines. -/
structure AsyncOptions where
  device : Option Int
  channels : Option Int
  sampleRate : Option ℚ
  framesPerBuffer : Option Nat
  suggestedLatency : Option ℚ
  deriving DecidableEq, Repr

/-- OpenStreamAsync (portaudio.cc lines 398-467): refuse when a stream is
already open; resolve option defaults; create the fill thread-safe
function binding for `jsCallback` *before* `Pa_OpenStream`, passing it as
the callback user data; on open or start failure release the binding
again, register nothing, and propagate the backend error. -/
def OpenStreamAsync (be : Backend) (st : PAState) (opts : AsyncOptions)
    (jsCallback : Nat) : OpResult Nat :=
  if st.streams.length > 0 then
    ⟨.error .alreadyOpen, st, []⟩
  else
    let device := opts.device.getD be.defaultOutputDevice
    let channels := opts.channels.getD 2
    let sampleRate := opts.sampleRate.getD 44100
    let framesPerBuffer := opts.framesPerBuffer.getD 256
    let latencyOpt := opts.suggestedLatency.getD 0
    let suggestedLatency :=
      if latencyOpt > 0 then latencyOpt
      else match be.deviceLowLatency device with
        | some l => l
        | none => 1 / 20
    let st1 := { st with audioCallbackTsfn := some jsCallback }
    let openCall := BackendCall.openStream device sampleRate channels
      framesPerBuffer suggestedLatency (some jsCallback)
    match be.openResult with
    | none =>
        ⟨.error (.backendError be.errText),
          { st1 with audioCallbackTsfn := none }, [openCall]⟩
    | some h =>
        if be.startOk then
          let streamId := st1.nextStreamId
          ⟨.ok streamId,
            { st1 with
                streams := mapInsert st1.streams streamId ⟨h, 1⟩
                nextStreamId := (streamId + 1) % 2 ^ 32 },
            [openCall, .startStream h]⟩
        else
          ⟨.error (.backendError be.errText),
            { st1 with audioCallbackTsfn := none },
            [openCall, .startStream h, .closeStream h]⟩

/-- Result of WriteStream: outcome, the sample buffer after the in-place
volume scaling (the source mutates the caller's buffer), and the backend
calls made.  WriteStream never mutates the registry or the bindings. -/
structure WriteResult where
  result : Except PAError Unit
  buffer : List ℚ
  calls : List BackendCall
  deriving Repr

/-- WriteStream (portaudio.cc lines 237-304): unknown id fails
("Stream not open"), an empty buffer fails ("Empty buffer"); otherwise
each sample is multiplied in place by the stream's volume — skipped
entirely when the volume equals 1 — and the buffer is handed to
`Pa_WriteStream` with frame count `len / 2` (stereo interleave). -/
def WriteStream (be : Backend) (st : PAState) (samples : List ℚ)
    (streamId : Nat) : WriteResult :=
  match GetStreamInfoById st.streams streamId with
  | none => ⟨.error .notFound, samples, []⟩
  | some sinfo =>
      if samples.length = 0 then
        ⟨.error (.invalidArgument "Empty buffer"), samples, []⟩
      else
        let volume := sinfo.volume
        let data := if volume ≠ 1 then samples.map (fun s => s * volume) else samples
        let call := BackendCall.writeStream sinfo.stream data (samples.length / 2)
        if be.writeOk then ⟨.ok (), data, [call]⟩
        else ⟨.error (.backendError be.errText), data, [call]⟩

/-- CloseStream (portaudio.cc lines 307-337): unknown id returns
immediately with no effect at all.  For a known id: `Pa_StopStream`,
then `Pa_CloseStream` only when the stop succeeded; the registry entry
is erased and both thread-safe-function bindings are released
unconditionally; finally, when the stop or close reported a failure,
that backend error is thrown. -/
def CloseStream (be : Backend) (st : PAState) (streamId : Nat) : OpResult Unit :=
  match GetStreamInfoById st.streams streamId with
  | none => ⟨.ok (), st, []⟩
  | some sinfo =>
      let stream := sinfo.stream
      let (errFree, calls) :=
        if be.stopOk then
          (be.closeOk, [BackendCall.stopStream stream, BackendCall.closeStream stream])
        else
          (false, [BackendCall.stopStream stream])
      let st1 :=
        { st with
            streams := mapErase st.streams streamId
            audioCallbackTsfn := none
            eventCallbackTsfn := none }
      if errFree then ⟨.ok (), st1, calls⟩
      else ⟨.error (.backendError be.errText), st1, calls⟩

/-- SetStreamEventCallback (portaudio.cc lines 378-395): release any
previous event binding and install the new one. -/
def SetStreamEventCallback (st : PAState) (jsCallback : Nat) : PAState :=
  { st with eventCallbackTsfn := some jsCallback }

/-- SetStreamVolume (portaudio.cc lines 495-517): clamp the value into
`[0, 2]` (two sequential corrections, exactly as the source), then fail
with "Stream not open" for an unknown id, else store the clamped volume
on that entry. -/
def SetStreamVolume (st : PAState) (streamId : Nat) (volume : ℚ) :
    Except PAError Unit × PAState :=
  let v1 := if volume < 0 then 0 else volume
  let v2 := if v1 > 2 then 2 else v1
  match GetStreamInfoById st.streams streamId with
  | none => (.error .notFound, st)
  | some sinfo =>
      (.ok (), { st with streams := mapInsert st.streams streamId ⟨sinfo.stream, v2⟩ })

/-- Return value of the real-time callback (`paContinue` / `paAbort`). -/
inductive CallbackResult where
  | paContinue
  | paAbort
  deriving DecidableEq, Repr

/-- The status-flag bits `PaStreamCallbackFlags` carries into a callback
invocation. -/
structure StatusFlags where
  outputUnderflow : Bool
  outputOverflow : Bool
  primingOutput : Bool
  deriving DecidableEq, Repr

/-- One invocation of the bound fill handler: which handler ran and the
length of the buffer view handed to it (`frameCount * 2`, stereo). -/
structure FillCall where
  handler : Nat
  bufferLen : Nat
  deriving DecidableEq, Repr

/-- EmitStreamEvent (portaudio.cc lines 340-351): deliver `(type, message)`
through the event binding when one exists, else do nothing. -/
def EmitStreamEvent (eventTsfn : Option Nat) (type message : String) :
    List (String × String) :=
  match eventTsfn with
  | some _ => [(type, message)]
  | none => []

/-- The event notifications one callback invocation emits (portaudio.cc
lines 367-373): flags are checked in the fixed order underflow,
overflow, priming, each set flag producing one `EmitStreamEvent`. -/
def reportedEvents (eventTsfn : Option Nat) (statusFlags : StatusFlags) :
    List (String × String) :=
  (if statusFlags.outputUnderflow then EmitStreamEvent eventTsfn "outputUnderflow" "" else [])
    ++ (if statusFlags.outputOverflow then EmitStreamEvent eventTsfn "outputOverflow" "" else [])
    ++ (if statusFlags.primingOutput then EmitStreamEvent eventTsfn "primingOutput" "" else [])

/-- AudioCallback (portaudio.cc lines 354-375): a blocking call through
the fill binding hands the handler a stereo buffer view of
`frameCount * 2` samples; with no live binding the call fails and no
handler runs.  Status flags are then reported through the event binding,
and the callback returns `paContinue` exactly when the blocking call
succeeded, `paAbort` otherwise. -/
def AudioCallback (fillTsfn eventTsfn : Option Nat) (frameCount : Nat)
    (statusFlags : StatusFlags) :
    CallbackResult × List FillCall × List (String × String) :=
  let (statusOk, fills) :=
    match fillTsfn with
    | some h => (true, [FillCall.mk h (frameCount * 2)])
    | none => (false, ([] : List FillCall))
  let events := reportedEvents eventTsfn statusFlags
  (if statusOk then .paContinue else .paAbort, fills, events)

/-! Helper lemmas about the keyed stream table. -/

theorem GetStreamInfoById_mapInsert_self (l : List (Nat × StreamInfo)) (id : Nat)
    (v : StreamInfo) : GetStreamInfoById (mapInsert l id v) id = some v := by
  induction l with
  | nil => simp [mapInsert, GetStreamInfoById]
  | cons kv rest ih =>
      obtain ⟨k, w⟩ := kv
      by_cases hk : k = id
      · simp [mapInsert, hk, GetStreamInfoById]
      · simp [mapInsert, hk, GetStreamInfoById, ih]

theorem GetStreamInfoById_mapInsert_ne (l : List (Nat × StreamInfo)) (id id' : Nat)
    (v : StreamInfo) (h : id' ≠ id) :
    GetStreamInfoById (mapInsert l id v) id' = GetStreamInfoById l id' := by
  induction l with
  | nil => simp [mapInsert, GetStreamInfoById, if_neg (Ne.symm h)]
  | cons kv rest ih =>
      obtain ⟨k, w⟩ := kv
      by_cases hk : k = id
      · subst hk
        simp [mapInsert, GetStreamInfoById, if_neg (Ne.symm h)]
      · simp only [mapInsert, if_neg hk, GetStreamInfoById]
        by_cases hk' : k = id'
        · simp [hk']
        · simp [hk', ih]

theorem GetStreamInfoById_eq_none_of_notMem (l : List (Nat × StreamInfo)) (id : Nat)
    (h : id ∉ l.map Prod.fst) : GetStreamInfoById l id = none := by
  induction l with
  | nil => rfl
  | cons kv rest ih =>
      obtain ⟨k, w⟩ := kv
      simp only [List.map_cons, List.mem_cons] at h
      push_neg at h
      simp [GetStreamInfoById, if_neg (Ne.symm h.1), ih h.2]

theorem GetStreamInfoById_mapErase_self (l : List (Nat × StreamInfo)) (id : Nat)
    (h : (l.map Prod.fst).Nodup) :
    GetStreamInfoById (mapErase l id) id = none := by
  induction l with
  | nil => rfl
  | cons kv rest ih =>
      obtain ⟨k, w⟩ := kv
      simp only [List.map_cons, List.nodup_cons] at h
      by_cases hk : k = id
      · subst hk
        simp only [mapErase, if_pos rfl]
        exact GetStreamInfoById_eq_none_of_notMem rest k h.1
      · simp [mapErase, hk, GetStreamInfoById, ih h.2]

/-! Concrete fixtures for witnesses and counterexamples: a backend on
which every primitive succeeds, variants with failing primitives, and
small registry states. -/

/-- A backend where every primitive succeeds. -/
def beOk : Backend where
  deviceCount := 4
  defaultOutputDevice := 0
  deviceLowLatency := fun _ => some (1 / 100)
  openDefaultResult := some 10
  openResult := some 11
  startOk := true
  stopOk := true
  closeOk := true
  writeOk := true
  errText := "err"

/-- Like `beOk` but `Pa_StopStream` fails. -/
def beStopFail : Backend :=
  { beOk with stopOk := false }

/-- Like `beOk` but `Pa_OpenStream` fails. -/
def beOpenFail : Backend :=
  { beOk with openResult := none }

/-- The pristine global state (empty registry, next id 1, no bindings). -/
def st0 : PAState where
  streams := []
  nextStreamId := 1
  audioCallbackTsfn := none
  eventCallbackTsfn := none

/-- A state holding one open stream (id 1, backend handle 10, volume 1). -/
def stOne : PAState where
  streams := [(1, ⟨10, 1⟩)]
  nextStreamId := 2
  audioCallbackTsfn := none
  eventCallbackTsfn := none

/-- A state holding one callback-driven stream with both bridge bindings
bound (fill handler 5, event handler 6). -/
def stAsync : PAState where
  streams := [(1, ⟨10, 1⟩)]
  nextStreamId := 2
  audioCallbackTsfn := some 5
  eventCallbackTsfn := some 6

/-- A state holding one open stream whose volume is 2. -/
def stVol2 : PAState where
  streams := [(1, ⟨10, 2⟩)]
  nextStreamId := 2
  audioCallbackTsfn := none
  eventCallbackTsfn := none

/-- A state holding two streams and both bindings, for frame-effect
checks. -/
def stTwo : PAState where
  streams := [(1, ⟨10, 1⟩), (2, ⟨11, 1⟩)]
  nextStreamId := 3
  audioCallbackTsfn := some 5
  eventCallbackTsfn := some 6

/-- C1 (amended): when the stream registry is non-empty, `openDefault`
(OpenDefaultStream) and `openCallbackDriven` (OpenStreamAsync) fail with
AlreadyOpen, leaving the whole state — registry, existing stream and
bindings — unchanged and making no backend call; the blocking
`openStream` performs no such registry check, so it can register a
second concurrent stream. -/
theorem C1_single_stream_already_open (be : Backend) (st : PAState)
    (opts : AsyncOptions) (cb : Nat) (h : st.streams ≠ []) :
    OpenDefaultStream be st = ⟨.error .alreadyOpen, st, []⟩ ∧
    OpenStreamAsync be st opts cb = ⟨.error .alreadyOpen, st, []⟩ := by
  have hl : 0 < st.streams.length := List.length_pos.mpr h
  constructor
  · simp [OpenDefaultStream, hl]
  · simp [OpenStreamAsync, hl]

/-- C1 counterexample: with stream 1 already open, the blocking
`openStream` does not fail with AlreadyOpen — it succeeds and registers
a second stream (portaudio.cc lines 154-234 contain no registry check),
so the at-most-one-stream invariant fails on the blocking open path. -/
theorem C1_counterexample :
    (OpenStream beOk stOne 0 44100 2 256).result = .ok 2 ∧
    (OpenStream beOk stOne 0 44100 2 256).state.streams =
      [(1, ⟨10, 1⟩), (2, ⟨11, 1⟩)] := by
  constructor <;> rfl

/-- C1 witness: opening the default stream while stream 1 is open fails
with AlreadyOpen and changes nothing. -/
theorem C1_witness :
    OpenDefaultStream beOk stOne = ⟨.error .alreadyOpen, stOne, []⟩ :=
  (C1_single_stream_already_open beOk stOne ⟨none, none, none, none, none⟩ 7
    (by decide)).1

/-- C2 (amended): `close(id)` is a complete no-op for an unknown id; for
a known id the registry entry is removed and both bridge bindings are
released regardless of backend stop/close failures, but a backend
failure during stop or close is raised as an error (not swallowed) after
the entry is removed. -/
theorem C2_close_effects (be : Backend) (st : PAState) (id : Nat)
    (hnd : (st.streams.map Prod.fst).Nodup) :
    (GetStreamInfoById st.streams id = none →
      CloseStream be st id = ⟨.ok (), st, []⟩) ∧
    (∀ sinfo, GetStreamInfoById st.streams id = some sinfo →
      (CloseStream be st id).state =
        { st with
            streams := mapErase st.streams id
            audioCallbackTsfn := none
            eventCallbackTsfn := none } ∧
      GetStreamInfoById (CloseStream be st id).state.streams id = none ∧
      ((CloseStream be st id).result = .ok () ↔
        be.stopOk = true ∧ be.closeOk = true)) := by
  constructor
  · intro h
    simp [CloseStream, h]
  · intro sinfo h
    cases hstop : be.stopOk <;> cases hclose : be.closeOk <;>
      simp [CloseStream, h, hstop, hclose,
        GetStreamInfoById_mapErase_self st.streams id hnd]

/-- C2 counterexample: closing the open stream 1 while the backend stop
primitive fails raises a backend error — the failure is not swallowed. -/
theorem C2_counterexample :
    (CloseStream beStopFail stOne 1).result = .error (.backendError "err") := by
  rfl

/-- C2 witness: closing the known stream 1 on a healthy backend removes
the entry, releases both bindings, and succeeds. -/
theorem C2_witness :
    (CloseStream beOk stOne 1).state =
      { stOne with
          streams := mapErase stOne.streams 1
          audioCallbackTsfn := none
          eventCallbackTsfn := none } ∧
    GetStreamInfoById (CloseStream beOk stOne 1).state.streams 1 = none ∧
    ((CloseStream beOk stOne 1).result = .ok () ↔
      beOk.stopOk = true ∧ beOk.closeOk = true) :=
  (C2_close_effects beOk stOne 1 (by decide)).2 ⟨10, 1⟩ (by decide)

/-- C3: after `close(id)` on a known id both bridge bindings are
released, and a fill invocation made after the close returns `paAbort`
and invokes no handler at all. -/
theorem C3_close_releases_bindings (be : Backend) (st : PAState) (id : Nat)
    (sinfo : StreamInfo) (h : GetStreamInfoById st.streams id = some sinfo)
    (fc : Nat) (flags : StatusFlags) :
    (CloseStream be st id).state.audioCallbackTsfn = none ∧
    (CloseStream be st id).state.eventCallbackTsfn = none ∧
    (AudioCallback (CloseStream be st id).state.audioCallbackTsfn
        (CloseStream be st id).state.eventCallbackTsfn fc flags).1 = .paAbort ∧
    (AudioCallback (CloseStream be st id).state.audioCallbackTsfn
        (CloseStream be st id).state.eventCallbackTsfn fc flags).2.1 = [] := by
  have hfill : (CloseStream be st id).state.audioCallbackTsfn = none := by
    cases hstop : be.stopOk <;> cases hclose : be.closeOk <;>
      simp [CloseStream, h, hstop, hclose]
  have hev : (CloseStream be st id).state.eventCallbackTsfn = none := by
    cases hstop : be.stopOk <;> cases hclose : be.closeOk <;>
      simp [CloseStream, h, hstop, hclose]
  refine ⟨hfill, hev, ?_, ?_⟩ <;> rw [hfill, hev] <;> rfl

/-- C3 witness: closing stream 1 of a callback-driven state releases the
fill handler 5 and event handler 6, and a later fill invocation aborts
without invoking any handler. -/
theorem C3_witness :
    (CloseStream beOk stAsync 1).state.audioCallbackTsfn = none ∧
    (CloseStream beOk stAsync 1).state.eventCallbackTsfn = none ∧
    (AudioCallback (CloseStream beOk stAsync 1).state.audioCallbackTsfn
        (CloseStream beOk stAsync 1).state.eventCallbackTsfn 128
        ⟨false, false, false⟩).1 = .paAbort ∧
    (AudioCallback (CloseStream beOk stAsync 1).state.audioCallbackTsfn
        (CloseStream beOk stAsync 1).state.eventCallbackTsfn 128
        ⟨false, false, false⟩).2.1 = [] :=
  C3_close_releases_bindings beOk stAsync 1 ⟨10, 1⟩ (by decide) 128
    ⟨false, false, false⟩

/-- C4: writing to an open stream whose volume is 2 hands the backend
(and leaves in the caller's buffer) every sample multiplied by 2, and
with volume 1 the scaling loop is skipped and the buffer handed to the
backend is the input itself, bit for bit. -/
theorem C4_volume_scaling (be : Backend) (st : PAState) (id : Nat)
    (samples : List ℚ) (sinfo : StreamInfo)
    (h : GetStreamInfoById st.streams id = some sinfo) (hne : samples ≠ []) :
    (sinfo.volume = 2 →
      (WriteStream be st samples id).buffer = samples.map (fun s => s * 2) ∧
      (WriteStream be st samples id).calls =
        [.writeStream sinfo.stream (samples.map (fun s => s * 2))
          (samples.length / 2)]) ∧
    (sinfo.volume = 1 →
      (WriteStream be st samples id).buffer = samples ∧
      (WriteStream be st samples id).calls =
        [.writeStream sinfo.stream samples (samples.length / 2)]) := by
  have hlen : ¬ samples.length = 0 := fun hz => hne (List.length_eq_zero.mp hz)
  constructor
  · intro hv
    have h21 : sinfo.volume ≠ 1 := by rw [hv]; norm_num
    cases hw : be.writeOk <;> simp [WriteStream, h, hlen, hv, h21, hw]
  · intro hv
    cases hw : be.writeOk <;> simp [WriteStream, h, hlen, hv, hw]

/-- C4 witness: a concrete write at volume 2 doubles every sample, and
at volume 1 returns the input buffer unchanged. -/
theorem C4_witness :
    (WriteStream beOk stVol2 [1 / 2, 3, -1, 4] 1).buffer =
      List.map (fun s : ℚ => s * 2) [1 / 2, 3, -1, 4] ∧
    (WriteStream beOk stOne [1 / 2, 3, -1, 4] 1).buffer = [1 / 2, 3, -1, 4] :=
  ⟨((C4_volume_scaling beOk stVol2 1 [1 / 2, 3, -1, 4] ⟨10, 2⟩ (by decide)
      (by decide)).1 rfl).1,
   ((C4_volume_scaling beOk stOne 1 [1 / 2, 3, -1, 4] ⟨10, 1⟩ (by decide)
      (by decide)).2 rfl).1⟩

/-- C5: `setVolume(id, v)` on a known id succeeds and stores exactly
`clamp(v, 0, 2)` (read back through the registry), and on an unknown id
fails with NotFound leaving the whole state unchanged. -/
theorem C5_setVolume_clamp (st : PAState) (id : Nat) (v : ℚ) :
    (∀ sinfo, GetStreamInfoById st.streams id = some sinfo →
      (SetStreamVolume st id v).1 = .ok () ∧
      GetStreamInfoById (SetStreamVolume st id v).2.streams id =
        some ⟨sinfo.stream, min (max v 0) 2⟩) ∧
    (GetStreamInfoById st.streams id = none →
      SetStreamVolume st id v = (.error .notFound, st)) := by
  have hclamp :
      (if (if v < 0 then (0 : ℚ) else v) > 2 then (2 : ℚ)
        else if v < 0 then 0 else v) = min (max v 0) 2 := by
    rcases lt_or_le v 0 with h0 | h0
    · rw [if_pos h0, max_eq_right h0.le]
      norm_num
    · rw [if_neg (not_lt.mpr h0), max_eq_left h0]
      rcases le_or_lt v 2 with h2 | h2
      · rw [if_neg (not_lt.mpr h2), min_eq_left h2]
      · rw [if_pos h2, min_eq_right h2.le]
  constructor
  · intro sinfo h
    refine ⟨by simp [SetStreamVolume, h], ?_⟩
    simp only [SetStreamVolume, h]
    rw [hclamp] at *
    rw [← hclamp]
    exact GetStreamInfoById_mapInsert_self st.streams id _
  · intro h
    simp [SetStreamVolume, h]

/-- C5 witness: setting volume 3 on the open stream 1 succeeds and reads
back as the clamped value 2. -/
theorem C5_witness :
    (SetStreamVolume stOne 1 3).1 = .ok () ∧
    GetStreamInfoById (SetStreamVolume stOne 1 3).2.streams 1 =
      some ⟨10, min (max 3 0) 2⟩ :=
  (C5_setVolume_clamp stOne 1 3).1 ⟨10, 1⟩ (by decide)

/-- The notifications a callback invocation emits do not depend on the
fill binding. -/
theorem AudioCallback_events (fillTsfn eventTsfn : Option Nat) (fc : Nat)
    (flags : StatusFlags) :
    (AudioCallback fillTsfn eventTsfn fc flags).2.2 =
      reportedEvents eventTsfn flags := by
  cases fillTsfn <;> rfl

/-- C6: with an event handler bound, each of the underflow, overflow and
priming flags that is set produces exactly one notification of its kind,
the notification list is always a subsequence of the fixed order
underflow, overflow, priming, and underflow together with overflow
produce exactly the two ordered notifications outputUnderflow then
outputOverflow with no coalescing. -/
theorem C6_event_notifications (fillTsfn : Option Nat) (e fc : Nat)
    (u o p : Bool) :
    ((AudioCallback fillTsfn (some e) fc ⟨u, o, p⟩).2.2.count
        ("outputUnderflow", "") = if u then 1 else 0) ∧
    ((AudioCallback fillTsfn (some e) fc ⟨u, o, p⟩).2.2.count
        ("outputOverflow", "") = if o then 1 else 0) ∧
    ((AudioCallback fillTsfn (some e) fc ⟨u, o, p⟩).2.2.count
        ("primingOutput", "") = if p then 1 else 0) ∧
    (AudioCallback fillTsfn (some e) fc ⟨u, o, p⟩).2.2.Sublist
      [("outputUnderflow", ""), ("outputOverflow", ""), ("primingOutput", "")] ∧
    (u = true → o = true → p = false →
      (AudioCallback fillTsfn (some e) fc ⟨u, o, p⟩).2.2 =
        [("outputUnderflow", ""), ("outputOverflow", "")]) := by
  have hev : ∀ flags : StatusFlags, reportedEvents (some e) flags =
      (if flags.outputUnderflow then [("outputUnderflow", "")] else []) ++
        (if flags.outputOverflow then [("outputOverflow", "")] else []) ++
        (if flags.primingOutput then [("primingOutput", "")] else []) :=
    fun _ => rfl
  simp only [AudioCallback_events, hev]
  cases u <;> cases o <;> cases p <;> decide

/-- C6 witness: with event handler 6 bound and both underflow and
overflow flagged, the invocation emits exactly outputUnderflow then
outputOverflow. -/
theorem C6_witness :
    (AudioCallback (some 5) (some 6) 128 ⟨true, true, false⟩).2.2 =
      [("outputUnderflow", ""), ("outputOverflow", "")] :=
  (C6_event_notifications (some 5) 6 128 true true false).2.2.2.2 rfl rfl rfl

/-- C7: openCallbackDriven passes the fill binding as the user data of
the backend open call (so the binding exists before the stream is
started), and when the backend open or start fails the fill binding is
released, the backend error is propagated, and no stream is left
registered. -/
theorem C7_async_binding (be : Backend) (st : PAState) (opts : AsyncOptions)
    (cb : Nat) (hempty : st.streams = []) :
    (∀ c ∈ (OpenStreamAsync be st opts cb).calls,
        c.isStreamOpenCall = true → c.userDataOf = some cb) ∧
    (be.openResult = none ∨ be.startOk = false →
      (OpenStreamAsync be st opts cb).result = .error (.backendError be.errText) ∧
      (OpenStreamAsync be st opts cb).state.audioCallbackTsfn = none ∧
      (OpenStreamAsync be st opts cb).state.streams = []) := by
  cases hopen : be.openResult with
  | none =>
      cases hstart : be.startOk <;>
        simp [OpenStreamAsync, hempty, hopen, hstart,
          BackendCall.isStreamOpenCall, BackendCall.userDataOf]
  | some hdl =>
      cases hstart : be.startOk <;>
        simp [OpenStreamAsync, hempty, hopen, hstart,
          BackendCall.isStreamOpenCall, BackendCall.userDataOf]

/-- C7 witness: an async open whose backend open call fails propagates
the backend error, leaves the fill binding released and registers no
stream. -/
theorem C7_witness :
    (OpenStreamAsync beOpenFail st0 ⟨none, none, none, none, none⟩ 5).result =
      .error (.backendError "err") ∧
    (OpenStreamAsync beOpenFail st0
        ⟨none, none, none, none, none⟩ 5).state.audioCallbackTsfn = none ∧
    (OpenStreamAsync beOpenFail st0
        ⟨none, none, none, none, none⟩ 5).state.streams = [] :=
  (C7_async_binding beOpenFail st0 ⟨none, none, none, none, none⟩ 5 rfl).2
    (Or.inl rfl)

/-- C8: every invalid argument to the blocking openStream — device index
outside `[0, deviceCount)`, non-positive channels, non-positive sample
rate, or zero framesPerBuffer — fails with InvalidArgument, leaves the
state unchanged, and performs no backend stream-open call. -/
theorem C8_openStream_validation (be : Backend) (st : PAState) (d : Int)
    (sr : ℚ) (ch : Int) (fpb : Nat)
    (h : d < 0 ∨ be.deviceCount ≤ d ∨ ch ≤ 0 ∨ sr ≤ 0 ∨ fpb = 0) :
    (∃ msg, (OpenStream be st d sr ch fpb).result =
      .error (.invalidArgument msg)) ∧
    (OpenStream be st d sr ch fpb).state = st ∧
    ∀ c ∈ (OpenStream be st d sr ch fpb).calls, c.isStreamOpenCall = false := by
  by_cases h1 : d < 0 ∨ be.deviceCount ≤ d
  · refine ⟨⟨"Invalid device index", ?_⟩, ?_, ?_⟩ <;>
      simp [OpenStream, h1, BackendCall.isStreamOpenCall]
  · by_cases h2 : ch ≤ 0
    · refine ⟨⟨"Channel count must be positive", ?_⟩, ?_, ?_⟩ <;>
        simp [OpenStream, h1, h2, BackendCall.isStreamOpenCall]
    · by_cases h3 : sr ≤ 0
      · refine ⟨⟨"Sample rate must be positive", ?_⟩, ?_, ?_⟩ <;>
          simp [OpenStream, h1, h2, h3, BackendCall.isStreamOpenCall]
      · by_cases h4 : fpb = 0
        · refine ⟨⟨"framesPerBuffer must be positive", ?_⟩, ?_, ?_⟩ <;>
            simp [OpenStream, h1, h2, h3, h4, BackendCall.isStreamOpenCall]
        · rcases h with h | h | h | h | h
          · exact absurd (Or.inl h) h1
          · exact absurd (Or.inr h) h1
          · exact absurd h h2
          · exact absurd h h3
          · exact absurd h h4

/-- C8 witness: `openStream(-1, 44100, 2, 256)` fails with
InvalidArgument, the registry stays empty, and no stream-open call
reaches the backend. -/
theorem C8_witness :
    (∃ msg, (OpenStream beOk st0 (-1) 44100 2 256).result =
      .error (.invalidArgument msg)) ∧
    (OpenStream beOk st0 (-1) 44100 2 256).state = st0 ∧
    ∀ c ∈ (OpenStream beOk st0 (-1) 44100 2 256).calls,
      c.isStreamOpenCall = false :=
  C8_openStream_validation beOk st0 (-1) 44100 2 256 (Or.inl (by norm_num))

/-- C9: a successful write hands the backend write primitive the frame
count `samples.length / 2` (the stereo interleave divisor). -/
theorem C9_frame_count (be : Backend) (st : PAState) (samples : List ℚ)
    (id : Nat) (sinfo : StreamInfo)
    (h : GetStreamInfoById st.streams id = some sinfo) (hne : samples ≠ [])
    (hw : be.writeOk = true) :
    (WriteStream be st samples id).result = .ok () ∧
    ∃ buf, (WriteStream be st samples id).calls =
      [.writeStream sinfo.stream buf (samples.length / 2)] := by
  have hlen : ¬ samples.length = 0 := fun hz => hne (List.length_eq_zero.mp hz)
  constructor
  · by_cases hv : sinfo.volume ≠ 1 <;> simp [WriteStream, h, hlen, hv, hw]
  · refine ⟨if sinfo.volume ≠ 1 then samples.map (fun s => s * sinfo.volume)
      else samples, ?_⟩
    by_cases hv : sinfo.volume ≠ 1 <;> simp [WriteStream, h, hlen, hv, hw]

/-- C9 witness: a 4-sample stereo write to the open stream 1 succeeds and
passes frame count 2 to the backend. -/
theorem C9_witness :
    (WriteStream beOk stOne [1, 1, 1, 1] 1).result = .ok () ∧
    ∃ buf, (WriteStream beOk stOne [1, 1, 1, 1] 1).calls =
      [.writeStream 10 buf 2] :=
  C9_frame_count beOk stOne [1, 1, 1, 1] 1 ⟨10, 1⟩ (by decide) (by decide) rfl

/-- C10: `setVolume` on a known id changes only that entry's volume
field: the entry keeps its backend stream handle, every other registry
entry is unchanged, and both bridge bindings and the id counter are
untouched. -/
theorem C10_setVolume_frame (st : PAState) (id : Nat) (v : ℚ)
    (sinfo : StreamInfo) (h : GetStreamInfoById st.streams id = some sinfo) :
    (∃ vol, GetStreamInfoById (SetStreamVolume st id v).2.streams id =
        some ⟨sinfo.stream, vol⟩) ∧
    (∀ id', id' ≠ id →
      GetStreamInfoById (SetStreamVolume st id v).2.streams id' =
        GetStreamInfoById st.streams id') ∧
    (SetStreamVolume st id v).2.audioCallbackTsfn = st.audioCallbackTsfn ∧
    (SetStreamVolume st id v).2.eventCallbackTsfn = st.eventCallbackTsfn ∧
    (SetStreamVolume st id v).2.nextStreamId = st.nextStreamId := by
  have h1 : GetStreamInfoById (SetStreamVolume st id v).2.streams id =
      some ⟨sinfo.stream,
        if (if v < 0 then (0 : ℚ) else v) > 2 then 2
        else if v < 0 then 0 else v⟩ := by
    simp only [SetStreamVolume, h]
    exact GetStreamInfoById_mapInsert_self st.streams id _
  refine ⟨⟨_, h1⟩, ?_, ?_, ?_, ?_⟩
  · intro id' hne
    simp only [SetStreamVolume, h]
    exact GetStreamInfoById_mapInsert_ne st.streams id id' _ hne
  · simp [SetStreamVolume, h]
  · simp [SetStreamVolume, h]
  · simp [SetStreamVolume, h]

/-- C10 witness: adjusting the volume of stream 1 keeps its backend
handle 10, leaves the other registry entry for id 2 unchanged, and
leaves the bindings and the id counter untouched. -/
theorem C10_witness :
    (∃ vol, GetStreamInfoById (SetStreamVolume stTwo 1 (3 / 2)).2.streams 1 =
        some ⟨10, vol⟩) ∧
    (∀ id', id' ≠ 1 →
      GetStreamInfoById (SetStreamVolume stTwo 1 (3 / 2)).2.streams id' =
        GetStreamInfoById stTwo.streams id') ∧
    (SetStreamVolume stTwo 1 (3 / 2)).2.audioCallbackTsfn =
      stTwo.audioCallbackTsfn ∧
    (SetStreamVolume stTwo 1 (3 / 2)).2.eventCallbackTsfn =
      stTwo.eventCallbackTsfn ∧
    (SetStreamVolume stTwo 1 (3 / 2)).2.nextStreamId = stTwo.nextStreamId :=
  C10_setVolume_frame stTwo 1 (3 / 2) ⟨10, 1⟩ (by decide)

end Zeaker
